import Mathlib

/-!
Shallow embedding of `restock_bot.py` (the stock-status reconciliation
engine of the byakka discord restock bot) and verification of the
specification's claims about it.

JSON values returned by the provider are modelled by the inductive `Json`
below; Python-level operations the parser performs on them (`len`, `[0]`,
`in`, truthiness, `> 0`, `==`) are modelled by `py*` helper functions whose
`none` result stands for a raised Python exception (`TypeError`,
`KeyError`, `AttributeError`, `IndexError`).  Every such exception inside
`parse_stock_response` is caught by its `try/except` and turned into a
`None` return, which the `Option.bind` chain reproduces.
-/

/-- A JSON value.  Numbers are modelled as integers (all quantities in the
provider responses are integers); object fields keep insertion order, as
Python dicts do. -/
inductive Json where
  | null
  | bool (b : Bool)
  | num (n : Int)
  | str (s : String)
  | arr (xs : List Json)
  | obj (kvs : List (String × Json))

/-- Python truthiness of a value (`if x:`). -/
def pyTruthy : Json → Bool
  | .null => false
  | .bool b => b
  | .num n => n != 0
  | .str s => s != ""
  | .arr xs => !xs.isEmpty
  | .obj kvs => !kvs.isEmpty

/-- Python `x > 0`.  Defined for numbers and booleans (`True > 0` is
`True`); any other operand raises `TypeError`, modelled as `none`. -/
def pyGtZero : Json → Option Bool
  | .num n => some (decide (0 < n))
  | .bool b => some b
  | _ => none

/-- Python `len(x)`: defined for strings, lists and dicts; `TypeError`
(`none`) otherwise. -/
def pyLen : Json → Option Nat
  | .str s => some s.data.length
  | .arr xs => some xs.length
  | .obj kvs => some kvs.length
  | _ => none

/-- Python `x[0]`: first element of a list, first character of a string
(as a one-character string); a dict raises `KeyError` for the integer key
`0` (JSON object keys are strings), other values raise `TypeError`. -/
def pyIndex0 : Json → Option Json
  | .arr (x :: _) => some x
  | .arr [] => none
  | .str s =>
    match s.data with
    | [] => none
    | c :: _ => some (.str (String.mk [c]))
  | _ => none

/-- `needle` is a leading segment of `hay` (character lists). -/
def leadsWith : List Char → List Char → Bool
  | [], _ => true
  | _ :: _, [] => false
  | n :: ns, h :: hs => n == h && leadsWith ns hs

/-- Substring containment on character lists (Python `sub in s` for
strings). -/
def charListHas : List Char → List Char → Bool
  | [], needle => leadsWith needle []
  | h :: t, needle => leadsWith needle (h :: t) || charListHas t needle

mutual

/-- Python `==` between two JSON values: numbers and booleans compare by
numeric value (`1 == True`), strings by content, lists elementwise, `None`
equals `None`; values of different kinds are unequal.  Dict comparison is
modelled order-sensitively (Python compares by key set; the two coincide
on all inputs arising here). -/
def pyEqV : Json → Json → Bool
  | .null, .null => true
  | .bool a, .bool b => a == b
  | .bool a, .num b => (if a then (1 : Int) else 0) == b
  | .num a, .bool b => a == (if b then (1 : Int) else 0)
  | .num a, .num b => a == b
  | .str a, .str b => a == b
  | .arr a, .arr b => pyEqL a b
  | .obj a, .obj b => pyEqKV a b
  | _, _ => false

/-- Python `==` on lists of JSON values. -/
def pyEqL : List Json → List Json → Bool
  | [], [] => true
  | x :: xs, y :: ys => pyEqV x y && pyEqL xs ys
  | _, _ => false

/-- Python `==` on key/value lists. -/
def pyEqKV : List (String × Json) → List (String × Json) → Bool
  | [], [] => true
  | (k1, v1) :: xs, (k2, v2) :: ys => k1 == k2 && pyEqV v1 v2 && pyEqKV xs ys
  | _, _ => false

end

/-- Python `str(x)` as used in the f-strings of the parser.  Lists and
dicts are approximated by placeholders; no verified execution path reaches
those cases. -/
def jsonToPyStr : Json → String
  | .null => "None"
  | .bool true => "True"
  | .bool false => "False"
  | .num n => toString n
  | .str s => s
  | .arr _ => "<list>"
  | .obj _ => "<dict>"

/-- One entry of the `available_locations` list built by
`parse_stock_response`: the dict
`{'locationId': ..., 'pickupQuantity': ..., 'inStoreQuantity': ...,
'fulfillmentType': ..., 'name': ...}`.  Absent dict keys are `none`; the
`name` key is attached by a later pass (empty until then). -/
structure AvailLoc where
  locationId : Json
  pickupQuantity : Option Json
  inStoreQuantity : Option Json
  fulfillmentType : Json
  name : String

/-- The canonical availability record returned by `parse_stock_response`
(the `result` dict).  The `last_checked` timestamp is omitted: no verified
property depends on it. -/
structure StockRecord where
  available : Bool
  stores : List AvailLoc
  total_stores : Nat
  locations_checked : List String

/-- The pickup half of the per-location loop body
(`restock_bot.py` lines 209-222): if `availability` is present and its
`availablePickupQuantity` is truthy and `> 0`, append a pickup entry. -/
def pickupPhase (acc : List AvailLoc) (kvs : List (String × Json)) (lid : Json) :
    Option (List AvailLoc) :=
  match kvs.lookup "availability" with
  | none => some acc
  | some (.obj avkvs) =>
    if pyTruthy ((avkvs.lookup "availablePickupQuantity").getD (.num 0)) then
      match pyGtZero ((avkvs.lookup "availablePickupQuantity").getD (.num 0)) with
      | some true =>
        some (acc ++ [⟨lid, some ((avkvs.lookup "availablePickupQuantity").getD (.num 0)),
          none, (avkvs.lookup "fulfillmentType").getD (.str "PICKUP"), ""⟩])
      | some false => some acc
      | none => none
    else some acc
  | some _ => none

/-- `next((loc for loc in acc if loc['locationId'] == lid), None)` followed
by `existing_location['inStoreQuantity'] = v`: update the first entry whose
`locationId` equals `lid`; `none` when no entry matches. -/
def mergeInStore : List AvailLoc → Json → Json → Option (List AvailLoc)
  | [], _, _ => none
  | e :: rest, lid, v =>
    if pyEqV e.locationId lid then some ({ e with inStoreQuantity := some v } :: rest)
    else (mergeInStore rest lid v).map (e :: ·)

/-- The in-store half of the loop body (lines 224-238): when
`inStoreAvailability` is present, merge its quantity into an existing entry
for the same `locationId` (unconditionally), else append a new `IN_STORE`
entry when the quantity is truthy and `> 0`. -/
def inStorePhase (acc : List AvailLoc) (kvs : List (String × Json)) (lid : Json) :
    Option (List AvailLoc) :=
  match kvs.lookup "inStoreAvailability" with
  | none => some acc
  | some (.obj instkvs) =>
    match mergeInStore acc lid ((instkvs.lookup "availableInStoreQuantity").getD (.num 0)) with
    | some merged => some merged
    | none =>
      if pyTruthy ((instkvs.lookup "availableInStoreQuantity").getD (.num 0)) then
        match pyGtZero ((instkvs.lookup "availableInStoreQuantity").getD (.num 0)) with
        | some true =>
          some (acc ++ [⟨lid, none,
            some ((instkvs.lookup "availableInStoreQuantity").getD (.num 0)), .str "IN_STORE", ""⟩])
        | some false => some acc
        | none => none
      else some acc
  | some _ => none

/-- The whole per-location loop body (lines 208-238).  A non-dict location
raises `AttributeError` on `.get`, i.e. `none`. -/
def processLocation (acc : List AvailLoc) (locd : Json) : Option (List AvailLoc) :=
  match locd with
  | .obj kvs =>
    match pickupPhase acc kvs ((kvs.lookup "locationId").getD .null) with
    | none => none
    | some acc1 => inStorePhase acc1 kvs ((kvs.lookup "locationId").getD .null)
  | _ => none

/-- Python iteration `for x in j`: elements of a list, characters of a
string, keys of a dict; `TypeError` otherwise. -/
def pyIterate : Json → Option (List Json)
  | .arr xs => some xs
  | .str s => some (s.data.map (fun c => Json.str (String.mk [c])))
  | .obj kvs => some (kvs.map (fun kv => Json.str kv.1))
  | _ => none

/-- Python `k in j` for a string `k`: key containment for dicts, substring
for strings, element equality for lists; `TypeError` otherwise. -/
def pyContainsStr (j : Json) (k : String) : Option Bool :=
  match j with
  | .obj kvs => some (kvs.any (fun kv => kv.1 == k))
  | .str s => some (charListHas s.data k.data)
  | .arr xs => some (xs.any (fun x => pyEqV x (.str k)))
  | _ => none

/-- Python `j[k]` for a string key `k`: dict indexing; strings and lists
raise `TypeError` for a string index. -/
def pyIndexStr (j : Json) (k : String) : Option Json :=
  match j with
  | .obj kvs => kvs.lookup k
  | _ => none

/-- `location_names[k] = v` with Python dict semantics: overwrite the
first (unique) existing key equal to `k`, else append. -/
def namesInsert : List (Json × String) → Json → String → List (Json × String)
  | [], k, v => [(k, v)]
  | (k1, v1) :: rest, k, v =>
    if pyEqV k1 k then (k1, v) :: rest else (k1, v1) :: namesInsert rest k v

/-- `location_names.get(k)` (first entry with an equal key). -/
def namesLookup (m : List (Json × String)) (k : Json) : Option String :=
  (m.find? (fun kv => pyEqV kv.1 k)).map (·.2)

/-- One iteration of the name-map loop (lines 242-244):
`location_names[loc['id']] = f"{loc.get('name','Unknown')} - {loc.get('city','Unknown')}"`.
A non-dict `loc` or a missing `id` key raises, i.e. `none`. -/
def nameEntryOf (loc : Json) : Option (Json × String) :=
  match loc with
  | .obj lk =>
    match lk.lookup "id" with
    | none => none
    | some idv =>
      some (idv, jsonToPyStr ((lk.lookup "name").getD (.str "Unknown")) ++ " - " ++
                 jsonToPyStr ((lk.lookup "city").getD (.str "Unknown")))
  | _ => none

/-- Build `location_names` from the top-level `locations` array
(lines 241-244). -/
def buildNames (kvs : List (String × Json)) : Option (List (Json × String)) :=
  match kvs.lookup "locations" with
  | none => some []
  | some locsJ =>
    (pyIterate locsJ).bind fun locs =>
      locs.foldlM (fun m loc => (nameEntryOf loc).map (fun kv => namesInsert m kv.1 kv.2)) []

/-- `location_names.get(lid, f"Location {lid}")`. -/
def nameFor (names : List (Json × String)) (lid : Json) : String :=
  (namesLookup names lid).getD ("Location " ++ jsonToPyStr lid)

/-- Attach the resolved name to an available-location entry
(lines 247-248). -/
def attachName (names : List (Json × String)) (e : AvailLoc) : AvailLoc :=
  { e with name := nameFor names e.locationId }

/-- One element of `locations_checked` (lines 255-256):
`location_names.get(loc_data.get('locationId'), f"Location {...}")`. -/
def lcName (names : List (Json × String)) (locd : Json) : Option String :=
  match locd with
  | .obj lk => some (nameFor names ((lk.lookup "locationId").getD .null))
  | _ => none

/-- `RestockBot.parse_stock_response` (lines 191-274).  Every Python
exception is caught by the surrounding `try/except` and becomes a `None`
return, as do the explicit `return None` branches (missing/empty `items`,
missing `locations`); hence the single `Option` error channel. -/
def parse_stock_response (data : Json) : Option StockRecord :=
  (match data with | .obj kvs => some kvs | _ => none).bind fun kvs =>
  (kvs.lookup "items").bind fun itemsJ =>
  (pyLen itemsJ).bind fun n =>
  if n == 0 then none else
  (pyIndex0 itemsJ).bind fun item =>
  (pyContainsStr item "locations").bind fun hasLocs =>
  if hasLocs then
    (pyIndexStr item "locations").bind fun locsJ =>
    (pyIterate locsJ).bind fun locs =>
    (locs.foldlM processLocation []).bind fun acc =>
    (buildNames kvs).bind fun names =>
    (locs.mapM (lcName names)).bind fun checked =>
    some { available := decide (0 < (acc.map (attachName names)).length)
           stores := acc.map (attachName names)
           total_stores := locs.length
           locations_checked := checked }
  else none

/-!
The monitoring loop, the status store and the interactive commands.
-/

/-- A value stored in `bot.last_stock_status`: either a parsed record or
the `{'available': False, 'error': 'Product not found'}` dict that
`check_product_availability` returns on HTTP 404. -/
inductive Status where
  | parsed (r : StockRecord)
  | errDict

/-- `status.get('available', False)` on a stored value. -/
def Status.availableB : Status → Bool
  | .parsed r => r.available
  | .errDict => false

/-- `bot.last_stock_status`: a dict keyed by sku (a Python dict has unique
keys; lists built by `storeSet`/`storeDel` preserve that). -/
abbrev StatusStore := List (String × Status)

/-- `last_stock_status.get(sku)`. -/
def storeGet : StatusStore → String → Option Status
  | [], _ => none
  | (k1, v1) :: rest, sku => if k1 == sku then some v1 else storeGet rest sku

/-- `last_stock_status[sku] = st`: overwrite the existing key or append. -/
def storeSet : StatusStore → String → Status → StatusStore
  | [], k, v => [(k, v)]
  | (k1, v1) :: rest, k, v =>
    if k1 == k then (k1, v) :: rest else (k1, v1) :: storeSet rest k v

/-- `if sku in last_stock_status: del last_stock_status[sku]`.  Keys of a
Python dict are unique, so dropping every occurrence coincides with
deleting the single entry. -/
def storeDel : StatusStore → String → StatusStore
  | [], _ => []
  | (k1, v1) :: rest, k => if k1 == k then storeDel rest k else (k1, v1) :: storeDel rest k

/-- The outcome of one HTTP fetch attempt, as distinguished by
`check_product_availability` (lines 173-189): a 200 with a JSON body, a
404, any other HTTP status, a timeout, or a transport-level exception. -/
inductive FetchResult where
  | ok (data : Json)
  | notFound
  | httpError (status : Nat)
  | timeout
  | transport

/-- `RestockBot.check_product_availability` (lines 150-189), given the
fetch outcome: a 200 body is parsed (`None` from the parser propagates);
a 404 returns the error dict; every other case returns `None`. -/
def check_product_availability : FetchResult → Option Status
  | .ok data => (parse_stock_response data).map Status.parsed
  | .notFound => some Status.errDict
  | .httpError _ => none
  | .timeout => none
  | .transport => none

/-- `previous_status.get('available', False)` where
`previous_status = last_stock_status.get(sku, {})` (lines 297, 301). -/
def prevAvailable (store : StatusStore) (sku : String) : Bool :=
  match storeGet store sku with
  | none => false
  | some st => st.availableB

/-- The result of one iteration of the monitoring loop for one product:
whether a restock alert was sent, and the store afterwards. -/
structure MonitorOutcome where
  fired : Bool
  store : StatusStore

/-- The body of `RestockBot.monitor_restocks` for a single product
(lines 285-376): fetch; on `None` skip (`continue`); otherwise alert iff
`current_status['available'] and not previous_status.get('available', False)`,
then unconditionally write `last_stock_status[sku] = current_status`.
The store is keyed by sku alone, exactly as in the source. -/
def monitor_restocks_step (store : StatusStore) (sku : String) (fr : FetchResult) :
    MonitorOutcome :=
  match check_product_availability fr with
  | none => ⟨false, store⟩
  | some st => ⟨st.availableB && !(prevAvailable store sku), storeSet store sku st⟩

/-- One entry of `PRODUCTS_TO_MONITOR`: optional display fields mirror the
optional JSON keys read with `.get(..., default)`. -/
structure Product where
  sku : String
  zip_code : String
  name : Option String
  priority : Option String
  category : Option String
  set : Option String

/-- The record the system associates with a monitored pair
`(sku, location_key)`.  The source reads `last_stock_status` by sku only
(lines 297, 376, 417, 576), never by the pair, so the zip argument is
ignored — this definition makes that fact explicit. -/
def storeGetPair (store : StatusStore) (sku : String) (_zip : String) : Option Status :=
  storeGet store sku

/-- Result of the `!remove` command. -/
structure RemoveResult where
  catalog : List Product
  store : StatusStore
  removed : Bool

/-- `remove_product` (lines 570-582): pop the first catalog entry matching
both sku and zip, and delete the sku-keyed status entry if present. -/
def remove_product : List Product → StatusStore → String → String → RemoveResult
  | [], store, _, _ => ⟨[], store, false⟩
  | p :: rest, store, sku, zip =>
    if p.sku == sku && p.zip_code == zip then
      ⟨rest, storeDel store sku, true⟩
    else
      let r := remove_product rest store sku zip
      ⟨p :: r.catalog, r.store, r.removed⟩

/-- Result of the `!add` command. -/
structure AddResult where
  catalog : List Product
  store : StatusStore
  added : Bool

/-- `add_product` (lines 551-568): reject a duplicate `(sku, zip)` pair,
else append `{'sku': sku, 'zip_code': zip, 'name': name or sku}`.  The
status store is untouched. -/
def add_product (cat : List Product) (store : StatusStore) (sku zip : String)
    (nameArg : Option String) : AddResult :=
  if cat.any (fun p => p.sku == sku && p.zip_code == zip) then
    ⟨cat, store, false⟩
  else
    ⟨cat ++ [⟨sku, zip, some (nameArg.getD sku), none, none, none⟩], store, true⟩

/-- `cat` contains an entry matching both sku and zip. -/
def catHasPair (cat : List Product) (sku zip : String) : Bool :=
  cat.any (fun p => p.sku == sku && p.zip_code == zip)

/-- The `product_info` dict built by `check_status` (lines 423-429).  The
per-product embed field body (store details) is summarised by the fields a
verified property inspects. -/
structure PInfo where
  name : String
  sku : String
  priority : String
  zip_code : String

/-- One embed produced by `create_status_embed`: its title, the product
names rendered as detailed fields (`products[:10]`, each field body built
from the product's stored record), and the `"... and N more products"`
overflow field when more than 10 products were passed. -/
structure StatusEmbed where
  title : String
  entries : List String
  overflowNote : Option Nat
deriving DecidableEq

/-- `create_status_embed` (lines 440-520): `None` on an empty list, else
one embed with at most the first 10 products as detailed fields and an
overflow notice beyond 10.  The body text of each field is abstracted to
the product's name; no verified property depends on its content. -/
def create_status_embed (products : List PInfo) (title : String) : Option StatusEmbed :=
  match products with
  | [] => none
  | _ :: _ =>
    some { title := title
           entries := (products.take 10).map PInfo.name
           overflowNote := if 10 < products.length then some (products.length - 10) else none }

/-- Python `s.lower()`, character-wise over the string's characters (all
strings involved are ASCII). -/
def pyLower (s : String) : String := ⟨s.data.map Char.toLower⟩

/-- The four valid priority filter values (line 404). -/
def validPriorities : List String := ["top", "high", "medium", "low"]

/-- Python truthiness of the `priority_filter` argument
(`if priority_filter and ...`): absent or empty string is falsy. -/
def filterActive : Option String → Bool
  | none => false
  | some s => s != ""

/-- The partition loop of `check_status` (lines 413-434): walk the catalog
in order, skip products failing the priority filter, and split the rest by
`status and status.get('available')` where
`status = last_stock_status.get(sku, {})`. -/
def partitionProducts (store : StatusStore) (f : Option String) :
    List Product → List PInfo × List PInfo
  | [] => ([], [])
  | p :: rest =>
    let tl := partitionProducts store f rest
    let priority := p.priority.getD "medium"
    if filterActive f && !(pyLower priority == pyLower (f.getD "")) then tl
    else
      let info : PInfo := ⟨p.name.getD p.sku, p.sku, priority, p.zip_code⟩
      if (match storeGet store p.sku with | some st => st.availableB | none => false) then
        (info :: tl.1, tl.2)
      else
        (tl.1, info :: tl.2)

/-- The messages the `!status` command can send. -/
inductive StatusReply where
  | notCheckedYet
  | invalidPriority
  | embeds (es : List StatusEmbed)
  | noPriorityProducts (f : String)
  | noProducts
deriving DecidableEq

/-- `check_status` (lines 394-549): an empty `last_stock_status` replies
"not checked yet" before anything else; then the priority filter is
validated; then the available/unavailable partitions are rendered into at
most one embed each. -/
def check_status_reply (cat : List Product) (store : StatusStore) (f : Option String) :
    StatusReply :=
  match store with
  | [] => .notCheckedYet
  | _ :: _ =>
    if filterActive f && !(validPriorities.contains (pyLower (f.getD ""))) then
      .invalidPriority
    else
      let parts := partitionProducts store f cat
      let embeds :=
        (create_status_embed parts.1
          ("✅ Available Products (" ++ toString parts.1.length ++ ")")).toList ++
        (create_status_embed parts.2
          ("❌ Out of Stock Products (" ++ toString parts.2.length ++ ")")).toList
      match embeds with
      | [] => if filterActive f then .noPriorityProducts (f.getD "") else .noProducts
      | _ :: _ => .embeds embeds

/-- The `!status` command handler as a state transformer: it reads the
catalog and the status store but never writes either, so both pass
through unchanged. -/
def check_status_cmd (cat : List Product) (store : StatusStore) (f : Option String) :
    StatusReply × List Product × StatusStore :=
  (check_status_reply cat store f, cat, store)

/-!
Helper lemmas.
-/

mutual

theorem pyEqV_refl : (j : Json) → pyEqV j j = true
  | .null => rfl
  | .bool b => by simp [pyEqV]
  | .num n => by simp [pyEqV]
  | .str s => by simp [pyEqV]
  | .arr xs => by simp [pyEqV, pyEqL_refl xs]
  | .obj kvs => by simp [pyEqV, pyEqKV_refl kvs]

theorem pyEqL_refl : (l : List Json) → pyEqL l l = true
  | [] => rfl
  | x :: xs => by simp [pyEqL, pyEqV_refl x, pyEqL_refl xs]

theorem pyEqKV_refl : (l : List (String × Json)) → pyEqKV l l = true
  | [] => rfl
  | (k, v) :: xs => by simp [pyEqKV, pyEqV_refl v, pyEqKV_refl xs]

end

theorem storeGet_storeSet (store : StatusStore) (k : String) (v : Status) :
    storeGet (storeSet store k v) k = some v := by
  induction store with
  | nil => simp [storeSet, storeGet]
  | cons kv rest ih =>
    obtain ⟨k1, v1⟩ := kv
    by_cases h : k1 = k
    · subst h; simp [storeSet, storeGet]
    · have hb : (k1 == k) = false := by simpa using h
      simp only [storeSet, hb, Bool.false_eq_true, if_false, storeGet]
      exact ih

theorem storeGet_storeDel (store : StatusStore) (k : String) :
    storeGet (storeDel store k) k = none := by
  induction store with
  | nil => simp [storeDel, storeGet]
  | cons kv rest ih =>
    obtain ⟨k1, v1⟩ := kv
    by_cases h : k1 = k
    · subst h; simpa [storeDel] using ih
    · have hb : (k1 == k) = false := by simpa using h
      simp only [storeDel, hb, Bool.false_eq_true, if_false, storeGet]
      exact ih

theorem mergeInStore_length (l : List AvailLoc) (lid v : Json) (l' : List AvailLoc)
    (h : mergeInStore l lid v = some l') : l'.length = l.length := by
  induction l generalizing l' with
  | nil => simp [mergeInStore] at h
  | cons e rest ih =>
    simp only [mergeInStore] at h
    split at h
    · cases h; simp
    · rcases Option.map_eq_some'.mp h with ⟨m, hm, rfl⟩
      simp [ih m hm]

theorem mergeInStore_none (l : List AvailLoc) (lid v : Json)
    (h : mergeInStore l lid v = none) :
    ∀ e ∈ l, pyEqV e.locationId lid = false := by
  induction l with
  | nil => intro e he; cases he
  | cons e rest ih =>
    simp only [mergeInStore] at h
    split at h
    · cases h
    · intro e' he'
      rcases List.mem_cons.mp he' with rfl | hmem
      · simpa using ‹¬ pyEqV e'.locationId lid = true›
      · exact ih (Option.map_eq_none'.mp h) e' hmem

theorem mergeInStore_append_fail (pre rest : List AvailLoc) (lid v : Json)
    (h : ∀ e ∈ pre, pyEqV e.locationId lid = false) :
    mergeInStore (pre ++ rest) lid v = (mergeInStore rest lid v).map (pre ++ ·) := by
  induction pre with
  | nil => simp [Option.map_id']
  | cons e p ih =>
    have he : pyEqV e.locationId lid = false := h e (by simp)
    have ih' := ih (fun e' he' => h e' (by simp [he']))
    simp only [List.append_eq] at ih' ⊢
    simp only [List.cons_append, mergeInStore, he, Bool.false_eq_true, if_false,
      List.append_eq, ih']
    cases mergeInStore rest lid v <;> simp

theorem pickupPhase_shape (acc : List AvailLoc) (kvs : List (String × Json)) (lid : Json)
    (acc' : List AvailLoc) (h : pickupPhase acc kvs lid = some acc') :
    acc' = acc ∨ ∃ pq ft, acc' = acc ++ [⟨lid, some pq, none, ft, ""⟩] := by
  unfold pickupPhase at h
  split at h
  · cases h; left; rfl
  · split at h
    · split at h
      · cases h; right; exact ⟨_, _, rfl⟩
      · cases h; left; rfl
      · cases h
    · cases h; left; rfl
  · cases h

theorem inStorePhase_shape (acc : List AvailLoc) (kvs : List (String × Json)) (lid : Json)
    (acc' : List AvailLoc) (h : inStorePhase acc kvs lid = some acc') :
    acc'.length = acc.length ∨
      (acc'.length = acc.length + 1 ∧ ∀ e ∈ acc, pyEqV e.locationId lid = false) := by
  unfold inStorePhase at h
  split at h
  · cases h; left; rfl
  · split at h
    · cases h; left; exact mergeInStore_length _ _ _ _ (by assumption)
    · split at h
      · split at h
        · cases h; right
          exact ⟨by simp, mergeInStore_none _ _ _ (by assumption)⟩
        · cases h; left; rfl
        · cases h
      · cases h; left; rfl
  · cases h

theorem processLocation_length (acc : List AvailLoc) (locd : Json) (acc' : List AvailLoc)
    (h : processLocation acc locd = some acc') : acc'.length ≤ acc.length + 1 := by
  unfold processLocation at h
  split at h
  · rename_i kvs
    cases h1 : pickupPhase acc kvs ((kvs.lookup "locationId").getD .null) with
    | none => rw [h1] at h; cases h
    | some acc1 =>
      rw [h1] at h
      rcases pickupPhase_shape _ _ _ _ h1 with rfl | ⟨pq, ft, rfl⟩
      · rcases inStorePhase_shape _ _ _ _ h with h2 | ⟨h2, _⟩ <;> omega
      · rcases inStorePhase_shape _ _ _ _ h with h2 | ⟨h2, hall⟩
        · simp at h2; omega
        · exfalso
          have hmem :
              (⟨(kvs.lookup "locationId").getD .null, some pq, none, ft, ""⟩ : AvailLoc) ∈
                acc ++ [⟨(kvs.lookup "locationId").getD .null, some pq, none, ft, ""⟩] := by
            simp
          have hfalse := hall _ hmem
          rw [pyEqV_refl] at hfalse
          simp at hfalse
  · cases h

theorem foldlM_processLocation_length (locs : List Json) (acc acc' : List AvailLoc)
    (h : locs.foldlM processLocation acc = some acc') :
    acc'.length ≤ acc.length + locs.length := by
  induction locs generalizing acc with
  | nil => simp_all [List.foldlM]
  | cons l rest ih =>
    simp only [List.foldlM] at h
    cases h1 : processLocation acc l with
    | none => rw [h1] at h; cases h
    | some acc1 =>
      rw [h1] at h
      have := ih acc1 h
      have := processLocation_length _ _ _ h1
      simp only [List.length_cons]
      omega

/-!
Concrete provider responses used by witnesses and counterexamples.
-/

/-- A well-formed response: one item, one location with pickup quantity 2,
no top-level location-name array. -/
def dGood : Json :=
  .obj [("items", .arr [.obj [("locations", .arr [
    .obj [("locationId", .num 1),
          ("availability", .obj [("availablePickupQuantity", .num 2)])]])]])]

/-- The record `parse_stock_response` produces for `dGood`. -/
def recGood : StockRecord :=
  { available := true
    stores := [⟨.num 1, some (.num 2), none, .str "PICKUP", "Location 1"⟩]
    total_stores := 1
    locations_checked := ["Location 1"] }

/-- The worked example of the spec (two dicts: stock data plus a named
location list). -/
def dNamed : Json :=
  .obj [("items", .arr [.obj [("locations", .arr [
          .obj [("locationId", .num 1),
                ("availability", .obj [("availablePickupQuantity", .num 2)])]])]]),
        ("locations", .arr [.obj [("id", .num 1), ("name", .str "Store A"),
                                  ("city", .str "X")]])]

example : parse_stock_response dGood = some recGood := rfl

example : parse_stock_response dNamed = some
  { available := true
    stores := [⟨.num 1, some (.num 2), none, .str "PICKUP", "Store A - X"⟩]
    total_stores := 1
    locations_checked := ["Store A - X"] } := rfl

/-- A location with a positive pickup quantity and a zero in-store
quantity: the zero is still merged into the entry. -/
def dZeroInStore : Json :=
  .obj [("items", .arr [.obj [("locations", .arr [
    .obj [("locationId", .num 1),
          ("availability", .obj [("availablePickupQuantity", .num 2)]),
          ("inStoreAvailability", .obj [("availableInStoreQuantity", .num 0)])]])]])]

example : parse_stock_response dZeroInStore = some
  { available := true
    stores := [⟨.num 1, some (.num 2), some (.num 0), .str "PICKUP", "Location 1"⟩]
    total_stores := 1
    locations_checked := ["Location 1"] } := rfl

example : parse_stock_response (.obj [("other", .num 1)]) = none := rfl
example : parse_stock_response (.obj [("items", .arr [])]) = none := rfl
example : parse_stock_response (.obj [("items", .num 5)]) = none := rfl
example : parse_stock_response (.obj [("items", .str "ab")]) = none := rfl
example : parse_stock_response (.obj [("items", .obj [("a", .num 1)])]) = none := rfl
example : parse_stock_response (.arr []) = none := rfl

/-!
Claim C7 — missing, non-array or empty `items` always yields `None`.
-/

/-- The condition of claim C7 on a raw response: the `items` field is
missing (including a non-dict response), not an array, or an empty
array. -/
def itemsFieldBad (data : Json) : Bool :=
  match data with
  | .obj kvs =>
    match kvs.lookup "items" with
    | none => true
    | some (.arr []) => true
    | some (.arr (_ :: _)) => false
    | some _ => true
  | _ => true

theorem charListHas_single (c : Char) :
    charListHas [c] ['l', 'o', 'c', 'a', 't', 'i', 'o', 'n', 's'] = false := by
  simp [charListHas, leadsWith]

/-- C7: for every raw response in which `items` is missing, not an array,
or an empty array, `parse_stock_response` returns no availability record
(the Python function returns `None`, raising nothing — every exception is
caught). -/
theorem empty_items_yields_none (data : Json) (h : itemsFieldBad data = true) :
    parse_stock_response data = none := by
  cases data with
  | obj kvs =>
    cases hit : kvs.lookup "items" with
    | none => simp [parse_stock_response, hit]
    | some v =>
      cases v with
      | arr xs =>
        cases xs with
        | nil => simp [parse_stock_response, hit, pyLen]
        | cons x xs => simp [itemsFieldBad, hit] at h
      | null => simp [parse_stock_response, hit, pyLen]
      | bool b => simp [parse_stock_response, hit, pyLen]
      | num n => simp [parse_stock_response, hit, pyLen]
      | str s =>
        obtain ⟨sd⟩ := s
        cases sd with
        | nil => simp [parse_stock_response, hit, pyLen]
        | cons c cs =>
          simp [parse_stock_response, hit, pyLen, pyIndex0, pyContainsStr,
            charListHas_single]
      | obj okvs =>
        cases okvs with
        | nil => simp [parse_stock_response, hit, pyLen]
        | cons kv rest => simp [parse_stock_response, hit, pyLen, pyIndex0]
  | null => rfl
  | bool b => rfl
  | num n => rfl
  | str s => rfl
  | arr xs => rfl

/-- C7 witness: a response whose `items` is the number `5`. -/
def dBad7 : Json := .obj [("items", .num 5)]

/-- C7 witness at a concrete input. -/
theorem empty_items_yields_none_witness :
    itemsFieldBad dBad7 = true ∧ parse_stock_response dBad7 = none :=
  ⟨rfl, empty_items_yields_none dBad7 rfl⟩

/-!
Claim C8 — reconciling the same raw response twice never re-fires.
-/

/-- C8: running the monitoring step for a product twice against the same
raw response never sends an alert the second time (after the first run the
stored availability equals the fresh availability, so the transition
condition is false). -/
theorem reconcile_idempotent (store : StatusStore) (sku : String) (data : Json) :
    (monitor_restocks_step (monitor_restocks_step store sku (.ok data)).store sku
      (.ok data)).fired = false := by
  cases hp : parse_stock_response data with
  | none => simp [monitor_restocks_step, check_product_availability, hp]
  | some r =>
    simp [monitor_restocks_step, check_product_availability, hp, prevAvailable,
      storeGet_storeSet, Status.availableB]

/-!
Claim C10 — the empty-store reply precedes priority validation.
-/

/-- C10: with an empty status store the `!status` command replies "no
products have been checked yet" for every priority argument — including
invalid ones — and that reply is not the invalid-priority error. -/
theorem empty_store_short_circuit (cat : List Product) (f : Option String) :
    check_status_cmd cat [] f = (.notCheckedYet, cat, []) ∧
      StatusReply.notCheckedYet ≠ StatusReply.invalidPriority :=
  ⟨rfl, fun h => StatusReply.noConfusion h⟩

/-!
Claim C1 — the restock transition law.
-/

/-- C1: the monitoring step fires a restock alert iff the fetch produced a
status whose `available` is true and the stored previous status for that
sku is absent or has `available` false; in particular it never fires on
available-to-available, unavailable-to-unavailable or
available-to-unavailable transitions. -/
theorem restock_transition_law (store : StatusStore) (sku : String) (fr : FetchResult) :
    (monitor_restocks_step store sku fr).fired = true ↔
      ((∃ st, check_product_availability fr = some st ∧ st.availableB = true) ∧
       (storeGet store sku = none ∨
        ∃ p, storeGet store sku = some p ∧ p.availableB = false)) := by
  cases hc : check_product_availability fr with
  | none => simp [monitor_restocks_step, hc]
  | some st =>
    cases hg : storeGet store sku with
    | none => simp [monitor_restocks_step, hc, prevAvailable, hg]
    | some p =>
      cases hpa : p.availableB <;>
        simp [monitor_restocks_step, hc, prevAvailable, hg, hpa]

/-- C1 witness: an available fetch against an empty store fires. -/
theorem restock_transition_law_witness :
    check_product_availability (.ok dGood) = some (.parsed recGood) ∧
    (Status.parsed recGood).availableB = true ∧
    (monitor_restocks_step [] "ABC" (.ok dGood)).fired = true :=
  ⟨rfl, rfl, (restock_transition_law [] "ABC" (.ok dGood)).mpr
    ⟨⟨.parsed recGood, rfl, rfl⟩, Or.inl rfl⟩⟩

/-!
Claim C5 — invariants of every normalized record.
-/

/-- C5: every record the normalizer produces has `available` equal to
"the store list is non-empty", and at most as many available stores as
locations checked. -/
theorem record_invariants (data : Json) (r : StockRecord)
    (h : parse_stock_response data = some r) :
    r.available = decide (0 < r.stores.length) ∧ r.stores.length ≤ r.total_stores := by
  unfold parse_stock_response at h
  simp only [Option.bind_eq_some] at h
  obtain ⟨kvs, -, itemsJ, -, n, -, h⟩ := h
  split at h
  · cases h
  · simp only [Option.bind_eq_some] at h
    obtain ⟨item, -, hasLocs, -, h⟩ := h
    split at h
    · simp only [Option.bind_eq_some] at h
      obtain ⟨locsJ, -, locs, -, acc, hfold, names, -, checked, -, h⟩ := h
      injection h with h
      subst h
      refine ⟨rfl, ?_⟩
      simp only [List.length_map]
      have := foldlM_processLocation_length locs [] acc hfold
      simpa using this
    · cases h

/-- C5 witness at a concrete response. -/
theorem record_invariants_witness :
    parse_stock_response dGood = some recGood ∧
    recGood.available = decide (0 < recGood.stores.length) ∧
    recGood.stores.length ≤ recGood.total_stores :=
  ⟨rfl, record_invariants dGood recGood rfl⟩

/-!
Claim C3 — fetch failures skip the product, except that a 404 writes an
"unavailable" error record into the store.
-/

/-- C3 (amended): timeouts, transport errors, other HTTP errors, and
unparseable 200 bodies all produce no alert and leave the store unchanged;
a 404, however, produces the `{'available': False, 'error': ...}` dict
which is written into the store (no alert fires). -/
theorem fetch_failure_skip_amended (store : StatusStore) (sku : String) :
    monitor_restocks_step store sku .timeout = ⟨false, store⟩ ∧
    monitor_restocks_step store sku .transport = ⟨false, store⟩ ∧
    (∀ s, monitor_restocks_step store sku (.httpError s) = ⟨false, store⟩) ∧
    (∀ data, parse_stock_response data = none →
      monitor_restocks_step store sku (.ok data) = ⟨false, store⟩) ∧
    monitor_restocks_step store sku .notFound = ⟨false, storeSet store sku .errDict⟩ := by
  refine ⟨rfl, rfl, fun s => rfl, fun data hd => ?_, rfl⟩
  simp [monitor_restocks_step, check_product_availability, hd]

/-- The availability flag of an optional stored status. -/
def availOf (o : Option Status) : Option Bool := o.map Status.availableB

/-- A store holding an available record for sku "B". -/
def st3 : StatusStore := [("B", .parsed recGood)]

/-- C3 counterexample: a 404 (`FetchFailure` of kind not-found) does not
leave the store untouched — the previously available record for the sku is
overwritten by the unavailable error dict. -/
theorem not_found_overwrites_store_cex :
    availOf (storeGet st3 "B") = some true ∧
    (monitor_restocks_step st3 "B" .notFound).fired = false ∧
    availOf (storeGet (monitor_restocks_step st3 "B" .notFound).store "B") = some false :=
  ⟨rfl, rfl, rfl⟩

/-- C3 witness at concrete inputs. -/
theorem fetch_failure_skip_witness :
    parse_stock_response .null = none ∧
    monitor_restocks_step [] "A" .timeout = ⟨false, []⟩ ∧
    monitor_restocks_step [] "A" (.ok .null) = ⟨false, []⟩ :=
  ⟨rfl, (fetch_failure_skip_amended [] "A").1,
    (fetch_failure_skip_amended [] "A").2.2.2.1 .null rfl⟩

/-!
Claim C2 — the status store is keyed by sku alone, not by (sku, zip).
-/

theorem remove_product_found (cat : List Product) (store : StatusStore) (sku zip : String)
    (h : catHasPair cat sku zip = true) :
    (remove_product cat store sku zip).store = storeDel store sku ∧
    (remove_product cat store sku zip).removed = true := by
  induction cat with
  | nil => simp [catHasPair] at h
  | cons p rest ih =>
    by_cases hp : (p.sku == sku && p.zip_code == zip) = true
    · simp [remove_product, hp]
    · have hpf : (p.sku == sku && p.zip_code == zip) = false := by simpa using hp
      have h' : catHasPair rest sku zip = true := by
        simpa [catHasPair, hpf] using h
      simpa [remove_product, hpf] using ih h'

/-- C2 (amended): the store lookup for a monitored pair ignores the
location key entirely — all pairs with the same sku share one record — and
`remove(sku, zip)`, when the catalog contains that pair, evicts the single
sku-keyed entry, clearing the last-known state for every location key of
that sku (so a later re-add of the sku starts from absent state). -/
theorem status_store_sku_keyed (store : StatusStore) (cat : List Product)
    (sku zip zip' : String) :
    storeGetPair store sku zip = storeGetPair store sku zip' ∧
    (catHasPair cat sku zip = true →
      (remove_product cat store sku zip).removed = true ∧
      storeGetPair (remove_product cat store sku zip).store sku zip' = none) := by
  refine ⟨rfl, fun h => ?_⟩
  obtain ⟨hs, hr⟩ := remove_product_found cat store sku zip h
  refine ⟨hr, ?_⟩
  unfold storeGetPair
  rw [hs]
  exact storeGet_storeDel store sku

/-- Monitored pair ("A", zip "1"). -/
def prodA1 : Product := ⟨"A", "1", some "A at 1", none, none, none⟩

/-- Monitored pair ("A", zip "2") — same sku, different location key. -/
def prodA2 : Product := ⟨"A", "2", some "A at 2", none, none, none⟩

/-- A catalog monitoring the same sku at two location keys. -/
def cat2 : List Product := [prodA1, prodA2]

/-- A store with a last-known record under sku "A". -/
def st0 : StatusStore := [("A", .errDict)]

/-- C2 counterexample: a check performed for the pair ("A","1") creates
the record the pair ("A","2") reads (no independence), and removing the
pair ("A","1") evicts the record of the pair ("A","2") as well (eviction
is not limited to the removed pair). -/
theorem status_store_pair_eviction_cex :
    storeGetPair (monitor_restocks_step [] "A" (.ok dGood)).store "A" "2" =
      some (.parsed recGood) ∧
    storeGetPair st0 "A" "2" = some .errDict ∧
    (remove_product cat2 st0 "A" "1").removed = true ∧
    storeGetPair (remove_product cat2 st0 "A" "1").store "A" "2" = none :=
  ⟨rfl, rfl, rfl, rfl⟩

/-- C2 witness at concrete inputs. -/
theorem status_store_sku_keyed_witness :
    catHasPair cat2 "A" "1" = true ∧
    (remove_product cat2 st0 "A" "1").removed = true ∧
    storeGetPair (remove_product cat2 st0 "A" "1").store "A" "2" = none :=
  ⟨rfl, ((status_store_sku_keyed st0 cat2 "A" "1" "2").2 rfl).1,
    ((status_store_sku_keyed st0 cat2 "A" "1" "2").2 rfl).2⟩

/-!
Claim C9 — invalid priority filter on the `!status` command.
-/

/-- C9 (amended): provided the status store is non-empty, a priority
filter outside the four known tiers makes the `!status` command reply with
the validation error message, and the catalog and store pass through
unchanged (the handler never mutates them). -/
theorem invalid_priority_validation (cat : List Product) (store : StatusStore)
    (ff : String) (hne : store ≠ []) (hact : filterActive (some ff) = true)
    (hval : validPriorities.contains (pyLower ff) = false) :
    check_status_cmd cat store (some ff) = (.invalidPriority, cat, store) := by
  cases store with
  | nil => exact absurd rfl hne
  | cons s rest =>
    have hval' : pyLower ff ∉ validPriorities := by simpa using hval
    unfold check_status_cmd check_status_reply
    simp [hact, hval']

/-- A one-product catalog. -/
def cat1 : List Product := [prodA1]

/-- C9 counterexample: with an empty status store, the invalid filter
"urgent" yields the not-checked-yet message, not the validation error the
claim requires for every invocation. -/
theorem invalid_priority_empty_store_cex :
    check_status_cmd cat1 [] (some "urgent") = (.notCheckedYet, cat1, []) ∧
    StatusReply.notCheckedYet ≠ StatusReply.invalidPriority ∧
    validPriorities.contains (pyLower "urgent") = false :=
  ⟨rfl, fun h => StatusReply.noConfusion h, rfl⟩

/-- C9 witness: a non-empty store and the invalid filter "urgent". -/
theorem invalid_priority_validation_witness :
    ([("A", Status.errDict)] : StatusStore) ≠ [] ∧
    filterActive (some "urgent") = true ∧
    validPriorities.contains (pyLower "urgent") = false ∧
    check_status_cmd cat1 [("A", .errDict)] (some "urgent") =
      (.invalidPriority, cat1, [("A", .errDict)]) :=
  ⟨fun h => List.noConfusion h, rfl, rfl,
    invalid_priority_validation cat1 [("A", .errDict)] "urgent"
      (fun h => List.noConfusion h) rfl rfl⟩

/-!
Claim C4 — pagination of the status listing.
-/

/-- C4 (amended): the status embed renderer emits a single message per
partition, holding detailed entries for only the first 10 products, with
an overflow note counting the rest; products beyond the tenth get no
detailed entry. -/
theorem status_embed_truncation (products : List PInfo) (title : String) (e : StatusEmbed)
    (h : create_status_embed products title = some e) :
    e.entries = (products.take 10).map PInfo.name ∧
    (products.length ≤ 10 → e.overflowNote = none) ∧
    (10 < products.length → e.overflowNote = some (products.length - 10)) := by
  cases products with
  | nil => cases h
  | cons p rest =>
    injection h with h
    subst h
    refine ⟨rfl, fun hle => ?_, fun hlt => ?_⟩
    · show (if 10 < (p :: rest).length then some ((p :: rest).length - 10) else none) = none
      rw [if_neg (by omega)]
    · show (if 10 < (p :: rest).length then some ((p :: rest).length - 10) else none) =
        some ((p :: rest).length - 10)
      rw [if_pos hlt]

/-- A monitored product with generated sku and name. -/
def mkProduct (n : Nat) : Product :=
  ⟨"S" ++ toString n, "90210", some ("P" ++ toString n), none, none, none⟩

/-- A catalog of 23 monitored products. -/
def catalog23 : List Product := (List.range 23).map mkProduct

/-- A status store in which all 23 products are available. -/
def store23 : StatusStore :=
  (List.range 23).map (fun n => ("S" ++ toString n, Status.parsed recGood))

/-- C4 counterexample: a status listing with 23 available products renders
the available partition as one single message with 10 detailed entries and
an overflow note for the other 13 — not three paginated messages of sizes
10, 10 and 3. -/
theorem status_pagination_cex :
    check_status_reply catalog23 store23 none =
      .embeds [⟨"✅ Available Products (23)",
        ["P0", "P1", "P2", "P3", "P4", "P5", "P6", "P7", "P8", "P9"], some 13⟩] := rfl

/-- A product-info entry with generated name and sku. -/
def pinfoOf (n : Nat) : PInfo := ⟨"P" ++ toString n, "S" ++ toString n, "medium", "90210"⟩

/-- A partition of 23 available product infos. -/
def pinfos23 : List PInfo := (List.range 23).map pinfoOf

/-- The embed the renderer actually produces for `pinfos23`. -/
def embed23 : StatusEmbed :=
  ⟨"t", ["P0", "P1", "P2", "P3", "P4", "P5", "P6", "P7", "P8", "P9"], some 13⟩

/-- C4 witness at a concrete partition of 23 products. -/
theorem status_embed_truncation_witness :
    create_status_embed pinfos23 "t" = some embed23 ∧
    embed23.entries = (pinfos23.take 10).map PInfo.name ∧
    embed23.overflowNote = some (pinfos23.length - 10) :=
  ⟨rfl, (status_embed_truncation pinfos23 "t" embed23 rfl).1,
    (status_embed_truncation pinfos23 "t" embed23 rfl).2.2 (by decide)⟩

/-!
Claim C6 — the in-store quantity merge rule of the normalizer.
-/

theorem mergeInStore_eq_none (l : List AvailLoc) (lid v : Json)
    (h : ∀ e ∈ l, pyEqV e.locationId lid = false) : mergeInStore l lid v = none := by
  induction l with
  | nil => rfl
  | cons e rest ih =>
    have he := h e (by simp)
    simp [mergeInStore, he, ih (fun e' he' => h e' (by simp [he']))]

/-- A provider location entry with the given `locationId`, optional
`availability.availablePickupQuantity` and optional
`inStoreAvailability.availableInStoreQuantity`. -/
def mkLocD (lid : Json) (pickup : Option Json) (inst : Option Json) : Json :=
  .obj ([("locationId", lid)] ++
    (match pickup with
     | some p => [("availability", Json.obj [("availablePickupQuantity", p)])]
     | none => []) ++
    (match inst with
     | some v => [("inStoreAvailability", Json.obj [("availableInStoreQuantity", v)])]
     | none => []))

/-- C6 (amended): processing one provider location appends entries in
provider order and merges by `location_id`, never overwriting a pickup
quantity — but the in-store quantity is merged into an existing entry for
the same `location_id` unconditionally, whatever its value (zero
included); only a new in-store-only entry requires the quantity to be
positive. -/
theorem in_store_merge_rule :
    (∀ (acc : List AvailLoc) (i q v : Int), 0 < q →
      (∀ e ∈ acc, pyEqV e.locationId (.num i) = false) →
      processLocation acc (mkLocD (.num i) (some (.num q)) (some (.num v))) =
        some (acc ++ [⟨.num i, some (.num q), some (.num v), .str "PICKUP", ""⟩])) ∧
    (∀ (acc : List AvailLoc) (i v : Int), v ≤ 0 →
      (∀ e ∈ acc, pyEqV e.locationId (.num i) = false) →
      processLocation acc (mkLocD (.num i) none (some (.num v))) = some acc) ∧
    (∀ (acc : List AvailLoc) (i v : Int), 0 < v →
      (∀ e ∈ acc, pyEqV e.locationId (.num i) = false) →
      processLocation acc (mkLocD (.num i) none (some (.num v))) =
        some (acc ++ [⟨.num i, none, some (.num v), .str "IN_STORE", ""⟩])) ∧
    (∀ (pre post : List AvailLoc) (e : AvailLoc) (i v : Int),
      pyEqV e.locationId (.num i) = true →
      (∀ e' ∈ pre, pyEqV e'.locationId (.num i) = false) →
      processLocation (pre ++ e :: post) (mkLocD (.num i) none (some (.num v))) =
        some (pre ++ { e with inStoreQuantity := some (.num v) } :: post)) := by
  refine ⟨?_, ?_, ?_, ?_⟩
  · intro acc i q v hq hall
    have hq0 : ((q : Int) != 0) = true := by simp [bne_iff_ne]; omega
    have hqd : decide ((0 : Int) < q) = true := decide_eq_true hq
    have hm : mergeInStore (acc ++ [⟨.num i, some (.num q), none, .str "PICKUP", ""⟩])
        (.num i) (.num v) =
        some (acc ++ [⟨.num i, some (.num q), some (.num v), .str "PICKUP", ""⟩]) := by
      rw [mergeInStore_append_fail _ _ _ _ hall]
      simp [mergeInStore, pyEqV]
    simp [processLocation, mkLocD, pickupPhase, inStorePhase, List.lookup,
      pyTruthy, pyGtZero, hq0, hqd, hm]
  · intro acc i v hv hall
    have hm := mergeInStore_eq_none acc (.num i) (.num v) hall
    by_cases hv0 : v = 0
    · subst hv0
      simp [processLocation, mkLocD, pickupPhase, inStorePhase, List.lookup,
        pyTruthy, pyGtZero, hm]
    · have hvt : ((v : Int) != 0) = true := by simp [bne_iff_ne, hv0]
      have hvd : decide ((0 : Int) < v) = false := decide_eq_false (by omega)
      simp [processLocation, mkLocD, pickupPhase, inStorePhase, List.lookup,
        pyTruthy, pyGtZero, hm, hvt, hvd]
  · intro acc i v hv hall
    have hm := mergeInStore_eq_none acc (.num i) (.num v) hall
    have hvt : ((v : Int) != 0) = true := by simp [bne_iff_ne]; omega
    have hvd : decide ((0 : Int) < v) = true := decide_eq_true hv
    simp [processLocation, mkLocD, pickupPhase, inStorePhase, List.lookup,
      pyTruthy, pyGtZero, hm, hvt, hvd]
  · intro pre post e i v he hall
    have hm : mergeInStore (pre ++ e :: post) (.num i) (.num v) =
        some (pre ++ { e with inStoreQuantity := some (.num v) } :: post) := by
      rw [mergeInStore_append_fail _ _ _ _ hall]
      simp [mergeInStore, he]
    simp [processLocation, mkLocD, pickupPhase, inStorePhase, List.lookup, hm]

/-- The in-store quantity fields of the stores of an optional record. -/
def inStoreQsOf (o : Option StockRecord) : Option (List (Option Json)) :=
  o.map (fun r => r.stores.map (fun e => e.inStoreQuantity))

/-- C6 counterexample: on `dZeroInStore` (pickup quantity 2, in-store
quantity 0 at the same location) the normalizer records the non-positive
in-store quantity 0 in the emitted entry, contradicting "recorded only
when positive". -/
theorem in_store_zero_recorded_cex :
    inStoreQsOf (parse_stock_response dZeroInStore) = some [some (Json.num 0)] := rfl

/-- C6 witness: a location with pickup quantity 2 and in-store quantity 0
produces one entry carrying both. -/
theorem in_store_merge_rule_witness :
    (0 : Int) < 2 ∧
    processLocation [] (mkLocD (.num 1) (some (.num 2)) (some (.num 0))) =
      some [⟨.num 1, some (.num 2), some (.num 0), .str "PICKUP", ""⟩] :=
  ⟨by decide, by
    have h := in_store_merge_rule.1 [] 1 2 0 (by decide)
      (fun e he => absurd he (List.not_mem_nil e))
    simpa using h⟩
